import Mathlib

/-!
Verification of the nexus-cli proxy subsystem and HTTP error classifier.

Shallow embedding of `src/clients/cli/src/proxy.rs` and
`src/clients/cli/src/orchestrator/error.rs`.  Strings are modelled as
`List Char` (byte-for-byte field equality is list equality); time is
modelled in whole seconds as `Nat`; the random number generator behind
`SliceRandom::choose` is modelled by an arbitrary natural draw `k`,
reduced modulo the slice length exactly as `gen_range(0..len)` ranges
over all indices; the file system is an explicit `FileState` input
(absent, unreadable, or readable content) and each mutex is modelled by
a poisoned flag next to the protected value, since `Mutex::lock` fails
exactly when the mutex is poisoned.
-/

/-- Unicode white-space predicate used by Rust `char::is_whitespace`
(the `White_Space` property), which `str::trim` strips from both ends. -/
def isRustWhitespace (c : Char) : Bool :=
  let n := c.toNat
  (9 ≤ n && n ≤ 13) || n = 32 || n = 0x85 || n = 0xA0 || n = 0x1680 ||
  (0x2000 ≤ n && n ≤ 0x200A) || n = 0x2028 || n = 0x2029 || n = 0x202F ||
  n = 0x205F || n = 0x3000

/-- Model of Rust `str::trim`: drop leading and trailing whitespace. -/
def trimList (l : List Char) : List Char :=
  ((l.dropWhile isRustWhitespace).reverse.dropWhile isRustWhitespace).reverse

/-- Model of Rust `str::split(sep)`: split on every occurrence of the
separator, keeping empty segments (so the result always has
`count sep + 1` segments, and is never the empty list). -/
def splitOnChar (sep : Char) : List Char → List (List Char)
  | [] => [[]]
  | c :: rest =>
    if c = sep then [] :: splitOnChar sep rest
    else
      match splitOnChar sep rest with
      | [] => [[c]]
      | h :: t => (c :: h) :: t

/-- Model of Rust `u16::from_str` (via `str::parse::<u16>`): an optional
leading plus sign, then one or more ASCII digits, value at most 65535.
A minus sign is rejected for unsigned targets, as is an empty digit
string or any non-digit character. -/
def parseU16digits (digits : List Char) : Option Nat :=
  if digits.isEmpty then none
  else if digits.all (fun c => c.isDigit) then
    let v := digits.foldl (fun a c => a * 10 + (c.toNat - 48)) 0
    if v ≤ 65535 then some v else none
  else none

/-- Strip an optional leading plus sign, then parse the digit run. -/
def parseU16 (s : List Char) : Option Nat :=
  parseU16digits (if s.head? = some '+' then s.tail else s)

/-- `ProxyConfig` from proxy.rs: host, port, username, password. -/
structure ProxyConfig where
  host : List Char
  port : Nat
  username : List Char
  password : List Char
deriving DecidableEq, Repr

/-- `ProxyConfig::from_string`: trim the input, split on `:`, require
exactly four fields, parse the second as `u16`; on failure return the
same error strings as the source. -/
def ProxyConfig.from_string (s : List Char) : Except (List Char) ProxyConfig :=
  match splitOnChar ':' (trimList s) with
  | [host, portStr, username, password] =>
    match parseU16 portStr with
    | some port => .ok ⟨host, port, username, password⟩
    | none => .error ("Invalid port in proxy: ".toList ++ s)
  | _ => .error ("Invalid proxy format: ".toList ++ s)

deriving instance DecidableEq for Except

example : ProxyConfig.from_string "1.2.3.4:8080:alice:secret".toList =
    .ok ⟨"1.2.3.4".toList, 8080, "alice".toList, "secret".toList⟩ := by decide

example : ProxyConfig.from_string " a:80:u:p".toList =
    .ok ⟨"a".toList, 80, "u".toList, "p".toList⟩ := by decide

example : (ProxyConfig.from_string "a:b:c".toList).isOk = false := by decide

example : (ProxyConfig.from_string "a:99999:c:d".toList).isOk = false := by decide

/-- Model of Rust `str::lines`: split on newline, drop the final empty
segment produced by a trailing newline, and strip one trailing carriage
return from each line. -/
def rustLines (text : List Char) : List (List Char) :=
  match text with
  | [] => []
  | _ :: _ =>
    let segs := splitOnChar '\n' text
    let segs := if segs.getLast? = some [] then segs.dropLast else segs
    segs.map (fun l => if l.getLast? = some '\r' then l.dropLast else l)

/-- The warning printed by `load_proxies` for a line whose parse failed:
`Warning: Skipping invalid proxy on line {line_num + 1}: {e}`. -/
def warnMsg (lineIdx : Nat) (e : List Char) : List Char :=
  "Warning: Skipping invalid proxy on line ".toList ++
    (toString (lineIdx + 1)).toList ++ ": ".toList ++ e

/-- The per-line loop body of `ProxyManager::load_proxies`, started at
line index `i`: trim each line, skip blanks and `#` comments, collect
parsed entries in order, and record a warning for each malformed line
(the loop never aborts on a malformed line). -/
def parsePassFrom (i : Nat) : List (List Char) → List ProxyConfig × List (List Char)
  | [] => ([], [])
  | raw :: rest =>
    let line := trimList raw
    let r := parsePassFrom (i + 1) rest
    if line.isEmpty || line.head? = some '#' then r
    else
      match ProxyConfig.from_string line with
      | .ok p => (p :: r.1, r.2)
      | .error e => (r.1, warnMsg i e :: r.2)

/-- The valid entries a reload pass extracts from raw file text. -/
def entriesOf (text : List Char) : List ProxyConfig :=
  (parsePassFrom 0 (rustLines text)).1

/-- External state of the proxy file as seen by one reload: missing,
present but unreadable, or readable with the given text. -/
inductive FileState where
  | absent
  | unreadable (e : List Char)
  | content (text : List Char)
deriving DecidableEq

/-- `ProxyManager` from proxy.rs: entries, last-update timestamp and
refresh interval (`Instant`/`Duration` modelled in whole seconds). -/
structure ProxyManager where
  proxies : List ProxyConfig
  last_updated : Nat
  update_interval : Nat
deriving DecidableEq, Repr

/-- `ProxyManager::new` at current time `now`: no entries, a refresh
interval of 300 s, and a last-update stamp backdated 3600 s to force the
initial load. -/
def ProxyManager.new (now : Nat) : ProxyManager :=
  { proxies := [], last_updated := now - 3600, update_interval := 300 }

/-- `ProxyManager::load_proxies`: check existence, read the file, run
the parse pass, reject an empty result, otherwise replace the entries.
Returns the call result, the manager state after the call, and the
number of file reads performed (`fs::read_to_string` calls). -/
def ProxyManager.load_proxies (st : ProxyManager) (path : List Char)
    (f : FileState) : Except (List Char) Unit × ProxyManager × Nat :=
  match f with
  | .absent => (.error (path ++ " file not found".toList), st, 0)
  | .unreadable e =>
      (.error ("Failed to read proxies.txt: ".toList ++ e), st, 1)
  | .content text =>
      let new_proxies := entriesOf text
      if new_proxies.isEmpty then
        (.error "No valid proxies found in proxies.txt".toList, st, 1)
      else (.ok (), { st with proxies := new_proxies }, 1)

/-- `ProxyManager::ensure_proxies_loaded`: reload when the elapsed time
since the last update exceeds the refresh interval or no entries are
cached; on a successful reload, stamp `last_updated := now`. A reload
failure propagates and leaves the state as `load_proxies` left it. -/
def ProxyManager.ensure_proxies_loaded (st : ProxyManager) (path : List Char)
    (f : FileState) (now : Nat) : Except (List Char) Unit × ProxyManager × Nat :=
  if now - st.last_updated > st.update_interval || st.proxies.isEmpty then
    match st.load_proxies path f with
    | (.ok _, st2, r) => (.ok (), { st2 with last_updated := now }, r)
    | (.error e, st2, r) => (.error e, st2, r)
  else (.ok (), st, 0)

/-- Model of `SliceRandom::choose`: `None` on an empty slice, otherwise
the element at the random index `k % length` (as `gen_range(0..len)`
ranges over every index when `k` does). -/
def chooseList {α : Type} (l : List α) (k : Nat) : Option α :=
  if l.isEmpty then none else l.get? (k % l.length)

/-- `ProxyManager::get_random_proxy`: ensure freshness (propagating its
error), fail if the entry list is still empty, otherwise return a clone
of a randomly chosen entry. -/
def ProxyManager.get_random_proxy (st : ProxyManager) (path : List Char)
    (f : FileState) (now : Nat) (k : Nat) :
    Except (List Char) ProxyConfig × ProxyManager × Nat :=
  match st.ensure_proxies_loaded path f now with
  | (.error e, st2, r) => (.error e, st2, r)
  | (.ok _, st2, r) =>
      if st2.proxies.isEmpty then
        (.error "No proxies available".toList, st2, r)
      else
        match chooseList st2.proxies k with
        | none => (.error "Failed to select random proxy".toList, st2, r)
        | some p => (.ok p, st2, r)

/-- `ProxyManager::proxy_count`. -/
def ProxyManager.proxy_count (st : ProxyManager) : Nat :=
  st.proxies.length

/-- The process-wide gateway state: the three `OnceLock<Mutex<..>>`
globals after initialization. Each mutex is modelled by its protected
value plus a poisoned flag; `lock()` fails exactly when poisoned. -/
structure GatewayState where
  manager_poisoned : Bool
  manager : ProxyManager
  enabled_poisoned : Bool
  enabled : Bool
  path_poisoned : Bool
  path : List Char
deriving DecidableEq

/-- Free function `is_proxy_enabled`: `lock().map(..).unwrap_or(true)` —
a poisoned lock silently yields the default `true`. -/
def is_proxy_enabled (w : GatewayState) : Bool :=
  if w.enabled_poisoned then true else w.enabled

/-- Free function `set_proxy_enabled`: `if let Ok(..) = lock()` — a
poisoned lock silently skips the write. -/
def set_proxy_enabled (w : GatewayState) (enabled : Bool) : GatewayState :=
  if w.enabled_poisoned then w else { w with enabled := enabled }

/-- Free function `get_proxy_file_path`: a poisoned lock silently
yields the default `proxies.txt`. -/
def get_proxy_file_path (w : GatewayState) : List Char :=
  if w.path_poisoned then "proxies.txt".toList else w.path

/-- Free function `set_proxy_file_path`: a poisoned lock silently
skips the write. -/
def set_proxy_file_path (w : GatewayState) (p : List Char) : GatewayState :=
  if w.path_poisoned then w else { w with path := p }

/-- Free function `get_random_proxy`: lock the global manager (failing
with `Failed to lock proxy manager` when poisoned) and delegate to
`ProxyManager::get_random_proxy`, which reads the configured path. -/
def get_random_proxy (w : GatewayState) (f : FileState) (now : Nat) (k : Nat) :
    Except (List Char) ProxyConfig × GatewayState :=
  if w.manager_poisoned then (.error "Failed to lock proxy manager".toList, w)
  else
    let r := w.manager.get_random_proxy (get_proxy_file_path w) f now k
    (r.1, { w with manager := r.2.1 })

/-- Free function `proxy_file_exists`: a pure existence check of the
configured path against the file system (`ex`), no read or parse. -/
def proxy_file_exists (w : GatewayState) (ex : List Char → Bool) : Bool :=
  ex (get_proxy_file_path w)

/-- Free function `should_use_proxy`: enabled and file exists. -/
def should_use_proxy (w : GatewayState) (ex : List Char → Bool) : Bool :=
  is_proxy_enabled w && proxy_file_exists w ex

/-- The canonical status-reason table of the `http` crate
(`StatusCode::canonical_reason`), as an association list. -/
def canonical_table : List (Nat × String) :=
  [(100, "Continue"), (101, "Switching Protocols"), (102, "Processing"),
   (103, "Early Hints"),
   (200, "OK"), (201, "Created"), (202, "Accepted"),
   (203, "Non-Authoritative Information"), (204, "No Content"),
   (205, "Reset Content"), (206, "Partial Content"), (207, "Multi-Status"),
   (208, "Already Reported"), (226, "IM Used"),
   (300, "Multiple Choices"), (301, "Moved Permanently"), (302, "Found"),
   (303, "See Other"), (304, "Not Modified"), (305, "Use Proxy"),
   (307, "Temporary Redirect"), (308, "Permanent Redirect"),
   (400, "Bad Request"), (401, "Unauthorized"), (402, "Payment Required"),
   (403, "Forbidden"), (404, "Not Found"), (405, "Method Not Allowed"),
   (406, "Not Acceptable"), (407, "Proxy Authentication Required"),
   (408, "Request Timeout"), (409, "Conflict"), (410, "Gone"),
   (411, "Length Required"), (412, "Precondition Failed"),
   (413, "Payload Too Large"), (414, "URI Too Long"),
   (415, "Unsupported Media Type"), (416, "Range Not Satisfiable"),
   (417, "Expectation Failed"), (418, "I\x27m a teapot"),
   (421, "Misdirected Request"), (422, "Unprocessable Entity"),
   (423, "Locked"), (424, "Failed Dependency"), (425, "Too Early"),
   (426, "Upgrade Required"), (428, "Precondition Required"),
   (429, "Too Many Requests"), (431, "Request Header Fields Too Large"),
   (451, "Unavailable For Legal Reasons"),
   (500, "Internal Server Error"), (501, "Not Implemented"),
   (502, "Bad Gateway"), (503, "Service Unavailable"),
   (504, "Gateway Timeout"), (505, "HTTP Version Not Supported"),
   (506, "Variant Also Negotiates"), (507, "Insufficient Storage"),
   (508, "Loop Detected"), (510, "Not Extended"),
   (511, "Network Authentication Required")]

/-- `StatusCode::canonical_reason` of the `http` crate: the canonical
reason phrase for a registered code, `None` otherwise. -/
def canonical_reason (code : Nat) : Option String :=
  (canonical_table.find? (fun p => p.1 = code)).map (fun p => p.2)

/-- `describe_status` from orchestrator/error.rs: `StatusCode::from_u16`
accepts 100..=999; a valid code resolves through `canonical_reason` with
the fallback `Unknown status code {code}`, an invalid one takes the
fallback directly. -/
def describe_status (code : Nat) : String :=
  let default_reason := "Unknown status code " ++ toString code
  if 100 ≤ code && code ≤ 999 then
    (canonical_reason code).getD default_reason
  else default_reason

/-- `OrchestratorError` from orchestrator/error.rs: decode failures and
transport (reqwest) failures are their own variants, distinct from the
HTTP-status variant. -/
inductive OrchestratorError where
  | Decode (e : String)
  | Reqwest (e : String)
  | Http (status : Nat) (message : String)
deriving DecidableEq

/-- `OrchestratorError::from_response`: the message is derived from the
status code alone via `describe_status` (the body is never read). -/
def OrchestratorError.from_response (status : Nat) : OrchestratorError :=
  .Http status (describe_status status)

example : describe_status 404 = "Not Found" := by decide

example : describe_status 599 = "Unknown status code 599" := by decide

example : describe_status 1000 = "Unknown status code 1000" := by decide

/-! ## Helper lemmas -/

theorem splitOnChar_ne_nil (sep : Char) (l : List Char) :
    splitOnChar sep l ≠ [] := by
  induction l with
  | nil => simp [splitOnChar]
  | cons c rest ih =>
    simp only [splitOnChar]
    split
    · simp
    · cases h : splitOnChar sep rest with
      | nil => exact absurd h ih
      | cons a b => simp

theorem splitOnChar_no_sep (sep : Char) (f : List Char) (h : sep ∉ f) :
    splitOnChar sep f = [f] := by
  induction f with
  | nil => rfl
  | cons c rest ih =>
    simp only [List.mem_cons, not_or] at h
    simp only [splitOnChar]
    rw [if_neg (fun hc => h.1 hc.symm), ih h.2]

theorem splitOnChar_append_sep (sep : Char) (f rest : List Char)
    (h : sep ∉ f) :
    splitOnChar sep (f ++ sep :: rest) = f :: splitOnChar sep rest := by
  induction f with
  | nil => simp [splitOnChar]
  | cons c cs ih =>
    simp only [List.mem_cons, not_or] at h
    simp only [List.cons_append, splitOnChar]
    rw [if_neg (fun hc => h.1 hc.symm), List.append_eq, ih h.2]

theorem parseU16digits_all (d : List Char) (p : Nat)
    (h : parseU16digits d = some p) :
    d.all (fun c => c.isDigit) = true := by
  unfold parseU16digits at h
  split at h
  · exact Option.noConfusion h
  · split at h
    · assumption
    · exact Option.noConfusion h

theorem parseU16_all_digits (s : List Char) (p : Nat)
    (h : parseU16 s = some p) :
    (if s.head? = some '+' then s.tail else s).all
      (fun c => c.isDigit) = true :=
  parseU16digits_all _ p h

theorem parseU16_no_colon (s : List Char) (p : Nat)
    (h : parseU16 s = some p) : ':' ∉ s := by
  intro hmem
  have hall := parseU16_all_digits s p h
  have hnotdig : (':' : Char).isDigit = false := by decide
  by_cases hh : s.head? = some '+'
  · rw [if_pos hh] at hall
    cases s with
    | nil => simp at hmem
    | cons c rest =>
      have hc : c = '+' := by
        simpa using hh
      rcases List.mem_cons.mp hmem with h1 | h1
      · rw [hc] at h1
        exact absurd h1 (by decide)
      · have := List.all_eq_true.mp hall _ h1
        simp [hnotdig] at this
  · rw [if_neg hh] at hall
    have := List.all_eq_true.mp hall _ hmem
    simp [hnotdig] at this

theorem chooseList_mem {α : Type} (l : List α) (k : Nat) (p : α)
    (h : chooseList l k = some p) : p ∈ l := by
  unfold chooseList at h
  split at h
  · exact Option.noConfusion h
  · exact List.get?_mem h

theorem parsePassFrom_fst_index (i j : Nat) (l : List (List Char)) :
    (parsePassFrom i l).1 = (parsePassFrom j l).1 := by
  induction l generalizing i j with
  | nil => rfl
  | cons raw rest ih =>
    simp only [parsePassFrom]
    split
    · exact ih (i + 1) (j + 1)
    · split
      · simp [ih (i + 1) (j + 1)]
      · simp [ih (i + 1) (j + 1)]

theorem parsePassFrom_append (i : Nat) (pre rest : List (List Char)) :
    parsePassFrom i (pre ++ rest) =
      ((parsePassFrom i pre).1 ++ (parsePassFrom (i + pre.length) rest).1,
       (parsePassFrom i pre).2 ++ (parsePassFrom (i + pre.length) rest).2) := by
  induction pre generalizing i with
  | nil => simp [parsePassFrom]
  | cons raw tl ih =>
    simp only [List.cons_append, parsePassFrom, List.length_cons]
    have harith : i + 1 + tl.length = i + (tl.length + 1) := by omega
    split
    · rw [List.append_eq, ih (i + 1), harith]
    · split
      · simp only [List.append_eq, ih (i + 1)]
        simp [harith]
      · simp only [List.append_eq, ih (i + 1)]
        simp [harith]

theorem parsePassFrom_bad_cons (i : Nat) (bad : List Char)
    (post : List (List Char)) (e : List Char)
    (hne : (trimList bad).isEmpty = false)
    (hnc : (trimList bad).head? ≠ some '#')
    (herr : ProxyConfig.from_string (trimList bad) = .error e) :
    parsePassFrom i (bad :: post) =
      ((parsePassFrom (i + 1) post).1,
       warnMsg i e :: (parsePassFrom (i + 1) post).2) := by
  have hcond : ((trimList bad).isEmpty ||
      decide ((trimList bad).head? = some '#')) = false := by
    simp [hne, hnc]
  simp only [parsePassFrom, hcond, Bool.false_eq_true, if_false, herr]

/-- A reload pass over readable text with zero valid entries fails and
returns the manager unchanged. -/
theorem load_proxies_empty (st : ProxyManager) (path text : List Char)
    (hempty : entriesOf text = []) :
    st.load_proxies path (.content text) =
      (.error "No valid proxies found in proxies.txt".toList, st, 1) := by
  simp [ProxyManager.load_proxies, hempty]

/-- A triggered freshness check over empty-parse text propagates the
failure and returns the manager unchanged. -/
theorem ensure_empty_reload (st : ProxyManager) (path text : List Char)
    (now : Nat) (hempty : entriesOf text = [])
    (htrig : (now - st.last_updated > st.update_interval ||
      st.proxies.isEmpty) = true) :
    st.ensure_proxies_loaded path (.content text) now =
      (.error "No valid proxies found in proxies.txt".toList, st, 1) := by
  rw [ProxyManager.ensure_proxies_loaded, if_pos htrig,
    load_proxies_empty st path text hempty]

/-- Claim C1: for every catalog state and file content, a reload pass
that yields zero valid entries fails with the EmptyCatalog error
(`No valid proxies found in proxies.txt`) and is atomic: `load_proxies`
leaves the manager — its entry sequence, hence its count, and its
last-successful-load timestamp — exactly as it was, and a triggered
`ensure_proxies_loaded` propagates the same error, again leaving the
manager unchanged. -/
theorem C1_empty_reload_atomic (st : ProxyManager) (path text : List Char)
    (now : Nat) (hempty : entriesOf text = []) :
    st.load_proxies path (.content text) =
      (.error "No valid proxies found in proxies.txt".toList, st, 1) ∧
    ((now - st.last_updated > st.update_interval ||
        st.proxies.isEmpty) = true →
      st.ensure_proxies_loaded path (.content text) now =
        (.error "No valid proxies found in proxies.txt".toList, st, 1)) :=
  ⟨load_proxies_empty st path text hempty,
   fun htrig => ensure_empty_reload st path text now hempty htrig⟩

/-- Witness for C1 at a concrete catalog and file content. -/
theorem C1_witness :
    entriesOf "garbage".toList = [] ∧
    ((⟨[⟨"h".toList, 1, "u".toList, "p".toList⟩], 7, 300⟩ :
        ProxyManager).load_proxies "proxies.txt".toList
        (.content "garbage".toList) =
      (.error "No valid proxies found in proxies.txt".toList,
       ⟨[⟨"h".toList, 1, "u".toList, "p".toList⟩], 7, 300⟩, 1) ∧
    ((308 - (7 : Nat) > 300 ||
        ([⟨"h".toList, 1, "u".toList, "p".toList⟩] :
          List ProxyConfig).isEmpty) = true →
      (⟨[⟨"h".toList, 1, "u".toList, "p".toList⟩], 7, 300⟩ :
          ProxyManager).ensure_proxies_loaded "proxies.txt".toList
          (.content "garbage".toList) 308 =
        (.error "No valid proxies found in proxies.txt".toList,
         ⟨[⟨"h".toList, 1, "u".toList, "p".toList⟩], 7, 300⟩, 1))) :=
  ⟨by decide,
   C1_empty_reload_atomic ⟨[⟨"h".toList, 1, "u".toList, "p".toList⟩], 7, 300⟩
     "proxies.txt".toList "garbage".toList 308 (by decide)⟩

/-- Counterexample to claim C2 as stated: the catalog holds one entry
from a prior successful load (timestamp 0), the refresh interval (300 s)
has elapsed at time 301, and the file now parses to zero valid entries.
The prior entry is retained in the catalog, yet the selection call does
not return it: `get_random_proxy` propagates the reload failure as an
error instead of serving from the retained catalog. -/
theorem C2_counterexample :
    ((⟨[⟨"h".toList, 1, "u".toList, "p".toList⟩], 0, 300⟩ :
        ProxyManager).get_random_proxy "proxies.txt".toList
        (.content "garbage".toList) 301 0 =
      (.error "No valid proxies found in proxies.txt".toList,
       ⟨[⟨"h".toList, 1, "u".toList, "p".toList⟩], 0, 300⟩, 1)) ∧
    (⟨[⟨"h".toList, 1, "u".toList, "p".toList⟩], 0, 300⟩ :
      ProxyManager).proxies ≠ [] := by
  constructor
  · decide
  · decide

/-- Claim C2 as amended: after a refresh attempt whose reload finds zero
valid entries, the prior catalog entries are retained unchanged (the
state, hence the count, is exactly the pre-attempt state), but a
selection call made while the file still parses empty returns the
reload error for every random draw, rather than an entry from the
retained catalog; entries are served again only once a reload
succeeds. -/
theorem C2_retained_but_not_served (st : ProxyManager) (path text : List Char)
    (now k : Nat) (hempty : entriesOf text = [])
    (htrig : (now - st.last_updated > st.update_interval ||
      st.proxies.isEmpty) = true) :
    st.get_random_proxy path (.content text) now k =
      (.error "No valid proxies found in proxies.txt".toList, st, 1) := by
  rw [ProxyManager.get_random_proxy,
    ensure_empty_reload st path text now hempty htrig]

/-- Witness for the amended C2 at a concrete populated catalog. -/
theorem C2_witness :
    entriesOf "garbage2".toList = [] ∧
    (301 - (⟨[⟨"h2".toList, 2, "u".toList, "p".toList⟩], 0, 300⟩ :
        ProxyManager).last_updated >
      (⟨[⟨"h2".toList, 2, "u".toList, "p".toList⟩], 0, 300⟩ :
        ProxyManager).update_interval ||
      (⟨[⟨"h2".toList, 2, "u".toList, "p".toList⟩], 0, 300⟩ :
        ProxyManager).proxies.isEmpty) = true ∧
    (⟨[⟨"h2".toList, 2, "u".toList, "p".toList⟩], 0, 300⟩ :
        ProxyManager).get_random_proxy "proxies.txt".toList
        (.content "garbage2".toList) 301 5 =
      (.error "No valid proxies found in proxies.txt".toList,
       ⟨[⟨"h2".toList, 2, "u".toList, "p".toList⟩], 0, 300⟩, 1) :=
  ⟨by decide, by decide,
   C2_retained_but_not_served ⟨[⟨"h2".toList, 2, "u".toList, "p".toList⟩], 0, 300⟩
     "proxies.txt".toList "garbage2".toList 301 5 (by decide) (by decide)⟩

/-- Counterexample to claim C3 as stated: with the enabled-flag mutex
poisoned (lock acquisition fails) and the stored flag `false`, reading
the flag does not surface any error — `is_proxy_enabled` silently
substitutes the default `true`, which moreover disagrees with the
stored value. -/
theorem C3_counterexample :
    is_proxy_enabled
      ⟨false, ⟨[], 0, 300⟩, true, false, false, "proxies.txt".toList⟩ = true ∧
    (⟨false, ⟨[], 0, 300⟩, true, false, false, "proxies.txt".toList⟩ :
      GatewayState).enabled = false ∧
    (⟨false, ⟨[], 0, 300⟩, true, false, false, "proxies.txt".toList⟩ :
      GatewayState).enabled_poisoned = true := by
  refine ⟨?_, ?_, ?_⟩ <;> decide

/-- Claim C3 as amended: only the gateway selection call surfaces a lock
failure as an error; the enabled-flag and file-path operations do not:
on a poisoned lock the reads silently fall back to the defaults (`true`
and `proxies.txt`) and the writes are silently skipped. -/
theorem C3_lock_failure_behaviour (w : GatewayState) (f : FileState)
    (now k : Nat) (b : Bool) (p : List Char) :
    (w.manager_poisoned = true →
      get_random_proxy w f now k =
        (.error "Failed to lock proxy manager".toList, w)) ∧
    (w.enabled_poisoned = true → is_proxy_enabled w = true) ∧
    (w.enabled_poisoned = true → set_proxy_enabled w b = w) ∧
    (w.path_poisoned = true → get_proxy_file_path w = "proxies.txt".toList) ∧
    (w.path_poisoned = true → set_proxy_file_path w p = w) := by
  refine ⟨fun h => ?_, fun h => ?_, fun h => ?_, fun h => ?_, fun h => ?_⟩ <;>
    simp [get_random_proxy, is_proxy_enabled, set_proxy_enabled,
      get_proxy_file_path, set_proxy_file_path, h]

/-- Witness for the amended C3 at a fully poisoned gateway state. -/
theorem C3_witness :
    (get_random_proxy ⟨true, ⟨[], 0, 300⟩, true, false, true, "x".toList⟩
        .absent 0 0 =
      (.error "Failed to lock proxy manager".toList,
       ⟨true, ⟨[], 0, 300⟩, true, false, true, "x".toList⟩)) ∧
    is_proxy_enabled ⟨true, ⟨[], 0, 300⟩, true, false, true, "x".toList⟩ = true ∧
    set_proxy_enabled ⟨true, ⟨[], 0, 300⟩, true, false, true, "x".toList⟩ false =
      ⟨true, ⟨[], 0, 300⟩, true, false, true, "x".toList⟩ ∧
    get_proxy_file_path ⟨true, ⟨[], 0, 300⟩, true, false, true, "x".toList⟩ =
      "proxies.txt".toList ∧
    set_proxy_file_path ⟨true, ⟨[], 0, 300⟩, true, false, true, "x".toList⟩
        "y".toList =
      ⟨true, ⟨[], 0, 300⟩, true, false, true, "x".toList⟩ := by
  have h := C3_lock_failure_behaviour
    ⟨true, ⟨[], 0, 300⟩, true, false, true, "x".toList⟩ .absent 0 0 false "y".toList
  exact ⟨h.1 (by decide), h.2.1 (by decide), h.2.2.1 (by decide),
    h.2.2.2.1 (by decide), h.2.2.2.2 (by decide)⟩

/-- Claim C4: `should_use_proxy` is true exactly when the enabled flag
reads true and the configured path exists on the file system; the
embedding of `should_use_proxy` takes no file content and performs no
read of `FileState`, so the result is independent of whether the file
content is parsable and involves no load or parse. -/
theorem C4_should_use_proxy_gate (w : GatewayState) (ex : List Char → Bool) :
    (should_use_proxy w ex = true ↔
      (is_proxy_enabled w = true ∧ ex (get_proxy_file_path w) = true)) ∧
    should_use_proxy w ex = (is_proxy_enabled w && proxy_file_exists w ex) := by
  constructor
  · simp [should_use_proxy, proxy_file_exists, Bool.and_eq_true]
  · rfl

/-- Witness for C4 at a concrete gateway state and file system. -/
theorem C4_witness :
    (should_use_proxy ⟨false, ⟨[], 0, 300⟩, false, true, false, "a".toList⟩
        (fun q => q = "a".toList) = true ↔
      (is_proxy_enabled ⟨false, ⟨[], 0, 300⟩, false, true, false, "a".toList⟩ = true ∧
       (fun q => decide (q = "a".toList))
         (get_proxy_file_path
           ⟨false, ⟨[], 0, 300⟩, false, true, false, "a".toList⟩) = true)) ∧
    should_use_proxy ⟨false, ⟨[], 0, 300⟩, false, true, false, "a".toList⟩
        (fun q => q = "a".toList) =
      (is_proxy_enabled ⟨false, ⟨[], 0, 300⟩, false, true, false, "a".toList⟩ &&
       proxy_file_exists ⟨false, ⟨[], 0, 300⟩, false, true, false, "a".toList⟩
         (fun q => q = "a".toList)) :=
  C4_should_use_proxy_gate ⟨false, ⟨[], 0, 300⟩, false, true, false, "a".toList⟩
    (fun q => q = "a".toList)

/-- Counterexample to claim C5 as stated: the line ` a:80:u:p` consists
of exactly the four colon-delimited fields ` a`, `80`, `u`, `p`, the
port parses as a 16-bit integer and no other field contains a colon,
yet parsing succeeds with host `a`: the parser trims the line first, so
the host is not byte-for-byte the first field ` a`. -/
theorem C5_counterexample :
    ProxyConfig.from_string (" a".toList ++ ':' :: ("80".toList ++
        ':' :: ("u".toList ++ ':' :: "p".toList))) =
      .ok ⟨"a".toList, 80, "u".toList, "p".toList⟩ ∧
    "a".toList ≠ " a".toList := by
  refine ⟨?_, ?_⟩ <;> decide

/-- Claim C5 as amended: for every line built of four colon-delimited
fields whose port field parses as an unsigned 16-bit integer and whose
other fields contain no colon, provided the line carries no leading or
trailing whitespace (the parser trims the line before splitting),
parsing succeeds and preserves all four fields byte-for-byte. -/
theorem C5_wellformed_line_parses (f0 f1 f2 f3 : List Char) (p : Nat)
    (h0 : ':' ∉ f0) (h2 : ':' ∉ f2) (h3 : ':' ∉ f3)
    (hp : parseU16 f1 = some p)
    (htrim : trimList (f0 ++ ':' :: (f1 ++ ':' :: (f2 ++ ':' :: f3))) =
      f0 ++ ':' :: (f1 ++ ':' :: (f2 ++ ':' :: f3))) :
    ProxyConfig.from_string (f0 ++ ':' :: (f1 ++ ':' :: (f2 ++ ':' :: f3))) =
      .ok ⟨f0, p, f2, f3⟩ := by
  have h1 : ':' ∉ f1 := parseU16_no_colon f1 p hp
  rw [ProxyConfig.from_string, htrim,
    splitOnChar_append_sep ':' f0 (f1 ++ ':' :: (f2 ++ ':' :: f3)) h0,
    splitOnChar_append_sep ':' f1 (f2 ++ ':' :: f3) h1,
    splitOnChar_append_sep ':' f2 f3 h2,
    splitOnChar_no_sep ':' f3 h3]
  simp [hp]

/-- Witness for the amended C5 on a concrete well-formed line. -/
theorem C5_witness :
    ':' ∉ "9.9.9.9".toList ∧ ':' ∉ "user".toList ∧ ':' ∉ "pw".toList ∧
    parseU16 "65535".toList = some 65535 ∧
    trimList ("9.9.9.9".toList ++ ':' :: ("65535".toList ++
        ':' :: ("user".toList ++ ':' :: "pw".toList))) =
      "9.9.9.9".toList ++ ':' :: ("65535".toList ++
        ':' :: ("user".toList ++ ':' :: "pw".toList)) ∧
    ProxyConfig.from_string ("9.9.9.9".toList ++ ':' :: ("65535".toList ++
        ':' :: ("user".toList ++ ':' :: "pw".toList))) =
      .ok ⟨"9.9.9.9".toList, 65535, "user".toList, "pw".toList⟩ :=
  ⟨by decide, by decide, by decide, by decide, by decide,
   C5_wellformed_line_parses "9.9.9.9".toList "65535".toList "user".toList
     "pw".toList 65535 (by decide) (by decide) (by decide) (by decide)
     (by decide)⟩

/-- Claim C6: a line whose (trimmed) colon split has other than four
fields fails with the format error; a four-field line whose port does
not parse as `u16` fails with the port error; and within a reload pass,
a malformed line that is neither blank nor a comment is skipped with a
warning while every other line is still processed — the pass yields
exactly the entries of the surrounding lines. -/
theorem C6_malformed_line_skipped (line : List Char)
    (pre post : List (List Char)) (e : List Char) :
    ((splitOnChar ':' (trimList line)).length ≠ 4 →
      ProxyConfig.from_string line =
        .error ("Invalid proxy format: ".toList ++ line)) ∧
    (∀ h0 po u pw, splitOnChar ':' (trimList line) = [h0, po, u, pw] →
      parseU16 po = none →
      ProxyConfig.from_string line =
        .error ("Invalid port in proxy: ".toList ++ line)) ∧
    ((trimList line).isEmpty = false → (trimList line).head? ≠ some '#' →
      ProxyConfig.from_string (trimList line) = .error e →
      (parsePassFrom 0 (pre ++ line :: post)).1 =
        (parsePassFrom 0 pre).1 ++ (parsePassFrom 0 post).1 ∧
      warnMsg pre.length e ∈ (parsePassFrom 0 (pre ++ line :: post)).2) := by
  refine ⟨?_, ?_, ?_⟩
  · intro hlen
    rw [ProxyConfig.from_string]
    split
    · rename_i hs
      rw [hs] at hlen
      simp at hlen
    · rfl
  · intro h0 po u pw hs hnone
    rw [ProxyConfig.from_string]
    split
    · rename_i host portStr username password hs2
      rw [hs] at hs2
      injection hs2 with e1 rest1
      injection rest1 with e2 rest2
      subst e1 e2
      rw [hnone]
    · rename_i hne
      exact absurd hs (hne h0 po u pw)
  · intro hne hnc herr
    have happ := parsePassFrom_append 0 pre (line :: post)
    have hbad := parsePassFrom_bad_cons (0 + pre.length) line post e hne hnc herr
    simp only [Nat.zero_add] at happ hbad
    constructor
    · rw [happ]
      simp only [hbad]
      rw [parsePassFrom_fst_index (pre.length + 1) 0 post]
    · rw [happ]
      simp only [hbad]
      exact List.mem_append_right _ (List.mem_cons_self _ _)

/-- Witness for C6 on concrete malformed lines inside a reload pass. -/
theorem C6_witness :
    ((splitOnChar ':' (trimList "bad-line".toList)).length ≠ 4 →
      ProxyConfig.from_string "bad-line".toList =
        .error ("Invalid proxy format: ".toList ++ "bad-line".toList)) ∧
    (∀ h0 po u pw,
      splitOnChar ':' (trimList "bad-line".toList) = [h0, po, u, pw] →
      parseU16 po = none →
      ProxyConfig.from_string "bad-line".toList =
        .error ("Invalid port in proxy: ".toList ++ "bad-line".toList)) ∧
    ((trimList "bad-line".toList).isEmpty = false →
      (trimList "bad-line".toList).head? ≠ some '#' →
      ProxyConfig.from_string (trimList "bad-line".toList) =
        .error ("Invalid proxy format: ".toList ++ "bad-line".toList) →
      (parsePassFrom 0 (["1.2.3.4:8080:alice:secret".toList] ++
          "bad-line".toList :: ["5.6.7.8:3128:bob:pw".toList])).1 =
        (parsePassFrom 0 ["1.2.3.4:8080:alice:secret".toList]).1 ++
          (parsePassFrom 0 ["5.6.7.8:3128:bob:pw".toList]).1 ∧
      warnMsg ["1.2.3.4:8080:alice:secret".toList].length
          ("Invalid proxy format: ".toList ++ "bad-line".toList) ∈
        (parsePassFrom 0 (["1.2.3.4:8080:alice:secret".toList] ++
          "bad-line".toList :: ["5.6.7.8:3128:bob:pw".toList])).2) :=
  C6_malformed_line_skipped "bad-line".toList
    ["1.2.3.4:8080:alice:secret".toList] ["5.6.7.8:3128:bob:pw".toList]
    ("Invalid proxy format: ".toList ++ "bad-line".toList)

/-- Every code in the canonical table lies in the 100..999 range that
`StatusCode::from_u16` accepts. -/
theorem canonical_reason_range (code : Nat) (r : String)
    (h : canonical_reason code = some r) : 100 ≤ code ∧ code ≤ 999 := by
  unfold canonical_reason at h
  cases hf : canonical_table.find? (fun p => p.1 = code) with
  | none => rw [hf] at h; exact Option.noConfusion h
  | some pr =>
    have hmem : pr ∈ canonical_table := List.mem_of_find?_eq_some hf
    have hbound : ∀ q ∈ canonical_table, 100 ≤ q.1 ∧ q.1 ≤ 999 := by decide
    have hpq := List.find?_some hf
    have hcode : pr.1 = code := by simpa using hpq
    have := hbound pr hmem
    omega

/-- Claim C7: the status classifier returns the canonical reason string
for every code in the standard table and synthesizes
`Unknown status code {code}` for every 16-bit code outside it, including
non-standard in-range codes and out-of-range codes; in particular 404
yields `Not Found` and 599 yields `Unknown status code 599`. -/
theorem C7_describe_status (code : Nat) (hcode : code < 65536) :
    (∀ r, canonical_reason code = some r → describe_status code = r) ∧
    (canonical_reason code = none →
      describe_status code = "Unknown status code " ++ toString code) ∧
    describe_status 404 = "Not Found" ∧
    describe_status 599 = "Unknown status code 599" := by
  refine ⟨?_, ?_, by decide, by decide⟩
  · intro r h
    have hrange := canonical_reason_range code r h
    rw [describe_status, if_pos ?side]
    · rw [h]
      rfl
    case side =>
      simp only [Bool.and_eq_true, decide_eq_true_eq]
      omega
  · intro h
    rw [describe_status]
    by_cases hr : (100 ≤ code ∧ code ≤ 999)
    · rw [if_pos ?side2]
      · rw [h]
        rfl
      case side2 =>
        simp only [Bool.and_eq_true, decide_eq_true_eq]
        omega
    · rw [if_neg ?side3]
      case side3 =>
        simp only [Bool.and_eq_true, decide_eq_true_eq]
        omega

/-- Witness for C7 at code 404. -/
theorem C7_witness :
    (404 : Nat) < 65536 ∧
    ((∀ r, canonical_reason 404 = some r → describe_status 404 = r) ∧
    (canonical_reason 404 = none →
      describe_status 404 = "Unknown status code " ++ toString 404) ∧
    describe_status 404 = "Not Found" ∧
    describe_status 599 = "Unknown status code 599") :=
  ⟨by decide, C7_describe_status 404 (by decide)⟩

/-- Claim C8: whenever selection succeeds, the returned entry is an
exact element (field-for-field, by structural equality) of the entry
sequence of the catalog state the call leaves behind, and the selection
step itself does not mutate that state — it is exactly the state the
freshness check produced. Selection never fabricates an entry. -/
theorem C8_selection_is_member (st : ProxyManager) (path : List Char)
    (f : FileState) (now k : Nat) (p : ProxyConfig)
    (hok : (st.get_random_proxy path f now k).1 = .ok p) :
    p ∈ (st.get_random_proxy path f now k).2.1.proxies ∧
    (st.get_random_proxy path f now k).2.1 =
      (st.ensure_proxies_loaded path f now).2.1 := by
  rw [ProxyManager.get_random_proxy] at hok ⊢
  revert hok
  rcases hens : st.ensure_proxies_loaded path f now with ⟨res, st2, r⟩
  intro hok
  cases res with
  | error e => simp at hok
  | ok u =>
    simp only at hok ⊢
    split at hok
    · simp at hok
    · rename_i hne
      rw [if_neg hne]
      cases hc : chooseList st2.proxies k with
      | none => rw [hc] at hok; simp at hok
      | some q =>
        rw [hc] at hok
        have hqp : q = p := by
          have : (Except.ok q : Except (List Char) ProxyConfig) =
              Except.ok p := hok
          injection this
        subst hqp
        exact ⟨chooseList_mem st2.proxies k q hc, rfl⟩

/-- Witness for C8 at a concrete fresh catalog. -/
theorem C8_witness :
    ((⟨[⟨"h".toList, 1, "u".toList, "p".toList⟩], 100, 300⟩ :
        ProxyManager).get_random_proxy "proxies.txt".toList .absent 200 0).1 =
      .ok ⟨"h".toList, 1, "u".toList, "p".toList⟩ ∧
    (⟨"h".toList, 1, "u".toList, "p".toList⟩ : ProxyConfig) ∈
      ((⟨[⟨"h".toList, 1, "u".toList, "p".toList⟩], 100, 300⟩ :
        ProxyManager).get_random_proxy "proxies.txt".toList .absent 200 0).2.1.proxies ∧
    ((⟨[⟨"h".toList, 1, "u".toList, "p".toList⟩], 100, 300⟩ :
        ProxyManager).get_random_proxy "proxies.txt".toList .absent 200 0).2.1 =
      ((⟨[⟨"h".toList, 1, "u".toList, "p".toList⟩], 100, 300⟩ :
        ProxyManager).ensure_proxies_loaded "proxies.txt".toList .absent 200).2.1 := by
  have h := C8_selection_is_member
    ⟨[⟨"h".toList, 1, "u".toList, "p".toList⟩], 100, 300⟩
    "proxies.txt".toList .absent 200 0
    ⟨"h".toList, 1, "u".toList, "p".toList⟩ (by decide)
  exact ⟨by decide, h.1, h.2⟩

/-- Claim C9: freshness checking is idempotent within the refresh
interval. If a call to the freshness check succeeded and performed one
file read, then a second call made before the interval has elapsed
performs zero reads and leaves the state untouched (one read total for
the pair), and a further call made after the interval has elapsed
performs exactly one more read. -/
theorem C9_freshness_idempotent (st st1 : ProxyManager) (path : List Char)
    (f : FileState) (t0 t1 t2 : Nat)
    (h1 : st.ensure_proxies_loaded path f t0 = (.ok (), st1, 1))
    (hfresh : ¬ t1 - st1.last_updated > st1.update_interval)
    (hstale : t2 - st1.last_updated > st1.update_interval) :
    st1.ensure_proxies_loaded path f t1 = (.ok (), st1, 0) ∧
    (st1.ensure_proxies_loaded path f t2).2.2 = 1 := by
  rw [ProxyManager.ensure_proxies_loaded] at h1
  split at h1
  · cases f with
    | absent => simp [ProxyManager.load_proxies] at h1
    | unreadable e => simp [ProxyManager.load_proxies] at h1
    | content text =>
      simp only [ProxyManager.load_proxies] at h1
      by_cases hemp : (entriesOf text).isEmpty
      · rw [if_pos hemp] at h1
        simp at h1
      · rw [if_neg hemp] at h1
        simp only [Prod.mk.injEq] at h1
        obtain ⟨-, hst1, -⟩ := h1
        subst hst1
        simp only [Bool.not_eq_true] at hemp
        constructor
        · rw [ProxyManager.ensure_proxies_loaded, if_neg]
          simp only [Bool.or_eq_true, not_or, Bool.not_eq_true,
            decide_eq_false_iff_not]
          exact ⟨hfresh, hemp⟩
        · rw [ProxyManager.ensure_proxies_loaded, if_pos]
          · rw [ProxyManager.load_proxies]
            simp only [hemp, Bool.false_eq_true, if_false]
          · simp only [Bool.or_eq_true, decide_eq_true_eq]
            exact Or.inl hstale
  · simp at h1

/-- No reload error ever carries the message of the two selection-side
fallbacks: the three reload errors are `{path} file not found`,
`Failed to read proxies.txt: {e}` and
`No valid proxies found in proxies.txt`, none of which equals
`No proxies available` or `Failed to select random proxy`. -/
theorem load_error_ne_selection_msgs (st : ProxyManager) (path : List Char)
    (f : FileState) (e : List Char) (st2 : ProxyManager) (r : Nat)
    (h : st.load_proxies path f = (.error e, st2, r)) :
    e ≠ "No proxies available".toList ∧
    e ≠ "Failed to select random proxy".toList := by
  cases f with
  | absent =>
    simp only [ProxyManager.load_proxies, Prod.mk.injEq, Except.error.injEq] at h
    obtain ⟨he, -, -⟩ := h
    subst he
    constructor <;> intro hco
    · have h1 : (path ++ " file not found".toList).getLast? =
          ("No proxies available".toList).getLast? := by rw [hco]
      rw [List.getLast?_append] at h1
      have h2 : (" file not found".toList).getLast? = some 'd' := by decide
      rw [h2] at h1
      have h3 : (some 'd').or path.getLast? = some 'd' := rfl
      rw [h3] at h1
      exact absurd h1 (by decide)
    · have h1 : (path ++ " file not found".toList).getLast? =
          ("Failed to select random proxy".toList).getLast? := by rw [hco]
      rw [List.getLast?_append] at h1
      have h2 : (" file not found".toList).getLast? = some 'd' := by decide
      rw [h2] at h1
      have h3 : (some 'd').or path.getLast? = some 'd' := rfl
      rw [h3] at h1
      exact absurd h1 (by decide)
  | unreadable msg =>
    simp only [ProxyManager.load_proxies, Prod.mk.injEq, Except.error.injEq] at h
    obtain ⟨he, -, -⟩ := h
    subst he
    constructor <;> intro hco
    · have h1 : ("Failed to read proxies.txt: ".toList ++ msg)[0]? =
          ("No proxies available".toList)[0]? := by rw [hco]
      rw [List.getElem?_append_left (by decide)] at h1
      exact absurd h1 (by decide)
    · have h1 : ("Failed to read proxies.txt: ".toList ++ msg)[10]? =
          ("Failed to select random proxy".toList)[10]? := by rw [hco]
      rw [List.getElem?_append_left (by decide)] at h1
      exact absurd h1 (by decide)
  | content text =>
    simp only [ProxyManager.load_proxies] at h
    split at h
    · simp only [Prod.mk.injEq, Except.error.injEq] at h
      obtain ⟨he, -, -⟩ := h
      subst he
      exact ⟨by decide, by decide⟩
    · simp at h

/-- A successful freshness check leaves a non-empty entry sequence. -/
theorem ensure_ok_nonempty (st : ProxyManager) (path : List Char)
    (f : FileState) (now : Nat) (st2 : ProxyManager) (r : Nat)
    (h : st.ensure_proxies_loaded path f now = (.ok (), st2, r)) :
    st2.proxies ≠ [] := by
  rw [ProxyManager.ensure_proxies_loaded] at h
  split at h
  · cases f with
    | absent => simp [ProxyManager.load_proxies] at h
    | unreadable msg => simp [ProxyManager.load_proxies] at h
    | content text =>
      simp only [ProxyManager.load_proxies] at h
      by_cases hemp : (entriesOf text).isEmpty
      · rw [if_pos hemp] at h
        simp at h
      · rw [if_neg hemp] at h
        simp only [Prod.mk.injEq] at h
        obtain ⟨-, hst2, -⟩ := h
        subst hst2
        simpa [List.isEmpty_iff] using hemp
  · rename_i hcond
    simp only [Bool.or_eq_true, not_or, Bool.not_eq_true,
      decide_eq_false_iff_not] at hcond
    simp only [Prod.mk.injEq] at h
    obtain ⟨-, hst2, -⟩ := h
    subst hst2
    simpa [List.isEmpty_iff] using hcond.2

/-- A freshness-check failure is exactly a reload failure: the error is
passed through unchanged. -/
theorem ensure_error_from_load (st : ProxyManager) (path : List Char)
    (f : FileState) (now : Nat) (e : List Char) (st2 : ProxyManager) (r : Nat)
    (h : st.ensure_proxies_loaded path f now = (.error e, st2, r)) :
    ∃ st3 r3, st.load_proxies path f = (.error e, st3, r3) := by
  rw [ProxyManager.ensure_proxies_loaded] at h
  split at h
  · split at h
    · simp at h
    · rename_i e3 st3 r3 heq
      simp only [Prod.mk.injEq, Except.error.injEq] at h
      obtain ⟨he, -, -⟩ := h
      subst he
      exact ⟨st3, r3, heq⟩
  · simp at h

/-- `choose` on a non-empty slice always yields an element. -/
theorem chooseList_nonempty {α : Type} (l : List α) (k : Nat) (h : l ≠ []) :
    ∃ q, chooseList l k = some q := by
  unfold chooseList
  rw [if_neg (by simpa [List.isEmpty_iff] using h)]
  have hlt : k % l.length < l.length :=
    Nat.mod_lt _ (List.length_pos.mpr h)
  exact ⟨l.get ⟨k % l.length, hlt⟩, List.get?_eq_get hlt⟩

/-- Every error escaping `get_random_proxy` originates in the reload:
the two selection-side fallbacks never fire. -/
theorem get_random_error_from_load (st : ProxyManager) (path : List Char)
    (f : FileState) (now k : Nat) (e : List Char)
    (h : (st.get_random_proxy path f now k).1 = .error e) :
    ∃ st3 r3, st.load_proxies path f = (.error e, st3, r3) := by
  rw [ProxyManager.get_random_proxy] at h
  revert h
  rcases hens : st.ensure_proxies_loaded path f now with ⟨res, st2, r⟩
  intro h
  cases res with
  | error e2 =>
    have he : e2 = e := by
      have h2 : (Except.error e2 : Except (List Char) ProxyConfig) =
          .error e := h
      injection h2
    subst he
    exact ensure_error_from_load st path f now e2 st2 r hens
  | ok u =>
    cases u
    have hne := ensure_ok_nonempty st path f now st2 r hens
    rcases chooseList_nonempty st2.proxies k hne with ⟨q, hq⟩
    have h2 : ((if st2.proxies.isEmpty = true then
        ((Except.error "No proxies available".toList :
          Except (List Char) ProxyConfig), st2, r)
      else
        match chooseList st2.proxies k with
        | none => (Except.error "Failed to select random proxy".toList, st2, r)
        | some p => (Except.ok p, st2, r)) :
        Except (List Char) ProxyConfig × ProxyManager × Nat).1 =
        Except.error e := h
    rw [if_neg (by simpa [List.isEmpty_iff] using hne), hq] at h2
    exact Except.noConfusion h2

/-- Claim C10: a successful freshness check always leaves a non-empty
entry sequence, and consequently the post-freshness empty check and the
failed-choose fallback of `get_random_proxy` are unreachable: for every
manager state, file content, time and random draw, the call never
returns `No proxies available` or `Failed to select random proxy`. -/
theorem C10_fallbacks_unreachable (st : ProxyManager) (path : List Char)
    (f : FileState) (now k : Nat) :
    (∀ st2 r, st.ensure_proxies_loaded path f now = (.ok (), st2, r) →
      st2.proxies ≠ []) ∧
    (st.get_random_proxy path f now k).1 ≠
      .error "No proxies available".toList ∧
    (st.get_random_proxy path f now k).1 ≠
      .error "Failed to select random proxy".toList := by
  refine ⟨fun st2 r h => ensure_ok_nonempty st path f now st2 r h, ?_, ?_⟩
  · intro h
    rcases get_random_error_from_load st path f now k _ h with ⟨st3, r3, hl⟩
    exact (load_error_ne_selection_msgs st path f _ st3 r3 hl).1 rfl
  · intro h
    rcases get_random_error_from_load st path f now k _ h with ⟨st3, r3, hl⟩
    exact (load_error_ne_selection_msgs st path f _ st3 r3 hl).2 rfl

/-- Witness for C10 at a concrete state whose freshness check succeeds. -/
theorem C10_witness :
    ((⟨[], 0, 300⟩ : ProxyManager).ensure_proxies_loaded "proxies.txt".toList
        (.content "w:1:u:p".toList) 400 =
      (.ok (), ⟨[⟨"w".toList, 1, "u".toList, "p".toList⟩], 400, 300⟩, 1)) ∧
    (⟨[⟨"w".toList, 1, "u".toList, "p".toList⟩], 400, 300⟩ :
      ProxyManager).proxies ≠ [] ∧
    ((⟨[], 0, 300⟩ : ProxyManager).get_random_proxy "proxies.txt".toList
        (.content "w:1:u:p".toList) 400 3).1 ≠
      .error "No proxies available".toList ∧
    ((⟨[], 0, 300⟩ : ProxyManager).get_random_proxy "proxies.txt".toList
        (.content "w:1:u:p".toList) 400 3).1 ≠
      .error "Failed to select random proxy".toList := by
  have h := C10_fallbacks_unreachable ⟨[], 0, 300⟩ "proxies.txt".toList
    (.content "w:1:u:p".toList) 400 3
  exact ⟨by decide,
    h.1 ⟨[⟨"w".toList, 1, "u".toList, "p".toList⟩], 400, 300⟩ 1 (by decide),
    h.2.1, h.2.2⟩

/-- Witness for C9 at a concrete first load and two later calls. -/
theorem C9_witness :
    ((⟨[], 0, 300⟩ : ProxyManager).ensure_proxies_loaded "proxies.txt".toList
        (.content "h:1:u:p".toList) 400 =
      (.ok (), ⟨[⟨"h".toList, 1, "u".toList, "p".toList⟩], 400, 300⟩, 1)) ∧
    ¬ (500 : Nat) - 400 > 300 ∧ (800 : Nat) - 400 > 300 ∧
    ((⟨[⟨"h".toList, 1, "u".toList, "p".toList⟩], 400, 300⟩ :
        ProxyManager).ensure_proxies_loaded "proxies.txt".toList
        (.content "h:1:u:p".toList) 500 =
      (.ok (), ⟨[⟨"h".toList, 1, "u".toList, "p".toList⟩], 400, 300⟩, 0) ∧
    ((⟨[⟨"h".toList, 1, "u".toList, "p".toList⟩], 400, 300⟩ :
        ProxyManager).ensure_proxies_loaded "proxies.txt".toList
        (.content "h:1:u:p".toList) 800).2.2 = 1) :=
  ⟨by decide, by decide, by decide,
   C9_freshness_idempotent ⟨[], 0, 300⟩
     ⟨[⟨"h".toList, 1, "u".toList, "p".toList⟩], 400, 300⟩
     "proxies.txt".toList (.content "h:1:u:p".toList) 400 500 800
     (by decide) (by decide) (by decide)⟩

example :
    entriesOf ("# comment\n1.2.3.4:8080:alice:secret\nbad-line-missing-fields\n5.6.7.8:3128:bob:pw\n".toList) =
      [⟨"1.2.3.4".toList, 8080, "alice".toList, "secret".toList⟩,
       ⟨"5.6.7.8".toList, 3128, "bob".toList, "pw".toList⟩] := by decide
